import Mathlib

/-!
Verification of the statement-execution and snapshot-persistence engine of the
SQL-Practice repository.

The development shallowly embeds the two core source files:

* `SQLDatabase` (engine binding, `src/unnamed/part_000`): a wrapper around one
  embedded relational-engine instance.  The backing engine (sql.js) is external
  to the repository and is modelled as an abstract record of primitives
  (`EngineOps`), exactly the five primitives the wrapper consumes.
* `DatabaseStorage` (snapshot store, `src/lib/storage.ts`): a keyed store of
  named, timestamped binary snapshots.  The backing key-value store
  (localforage) is modelled as an association list of JSON-like stored shapes.

JavaScript `Date` values are modelled as their millisecond timestamps (`Nat`);
`Date.prototype.toISOString` composed with `new Date(string)` is lossless at
millisecond precision, so the serialization is modelled as an injective decimal
text encoding with its parse.  `Uint8Array` values are modelled as
`List (Fin 256)`; plain JavaScript number arrays as `List Nat`.
-/

/-- A scalar cell of a query result.  The engine reports null, integer or text
cells in every behaviour covered here; the float and blob cases carry no
claim-relevant structure and are omitted from the embedding. -/
inductive SQLValue where
  | vNull : SQLValue
  | vInt : Int → SQLValue
  | vText : String → SQLValue
deriving DecidableEq, Repr

/-- Normalized outcome of one statement (interface `QueryResult`,
`src/unnamed/part_000` lines 5-9).  `rowsAffected` is `none` when the source
object omits the field. -/
structure QueryResult where
  columns : List String
  values : List (List SQLValue)
  rowsAffected : Option Nat := none
deriving DecidableEq, Repr

/-- The primitives of the backing embedded engine, consumed by the wrapper.
`prepQuery` models `db.prepare` followed by the `getColumnNames`/`step`/`get`
collection loop (lines 48-59): it fails, or yields the column names, the
materialized rows, and the engine state after stepping.  `run` models `db.run`
followed by `db.getRowsModified()` (lines 64-68).  `exportBytes` models
`db.export()` (line 80) and `newDatabase` models `new SQL.Database(data)`
(line 39).  The engine itself (sql.js) is outside the repository. -/
structure EngineOps (σ : Type) where
  newDatabase : Option (List (Fin 256)) → σ
  prepQuery : σ → String → Except String (List String × List (List SQLValue) × σ)
  run : σ → String → Except String (Nat × σ)
  exportBytes : σ → List (Fin 256)

/-- The wrapper state (class `SQLDatabase`, lines 19-27): a nullable engine
instance plus the id/name pair copied at construction. -/
structure SQLDatabase (σ : Type) where
  db : Option σ
  dbId : String
  dbName : String
deriving DecidableEq, Repr

/-- The constructor (lines 24-27): `this.db` starts as `null`. -/
def mkHandle (σ : Type) (id name : String) : SQLDatabase σ :=
  { db := none, dbId := id, dbName := name }

/-- Method `createDatabase` (lines 37-40): installs a fresh engine instance
built from the optional snapshot bytes. -/
def createDatabase {σ : Type} (E : EngineOps σ) (h : SQLDatabase σ)
    (data : Option (List (Fin 256))) : SQLDatabase σ :=
  { h with db := some (E.newDatabase data) }

/-- Method `executeQuery` (lines 42-74).  A `null` engine fails with
`"Database not initialized"`.  Otherwise the row-producing path is attempted
first; on its failure the statement is re-run as a non-row-returning statement,
producing the synthetic single-column success result carrying
`getRowsModified()`; if that also fails, the call fails with `"SQL Error: "`
prefixed to the message of the first (row-producing) attempt (line 71). -/
def executeQuery {σ : Type} (E : EngineOps σ) (h : SQLDatabase σ) (query : String) :
    Except String (QueryResult × SQLDatabase σ) :=
  match h.db with
  | none => Except.error "Database not initialized"
  | some s =>
    match E.prepQuery s query with
    | Except.ok (cols, rows, s2) =>
        Except.ok ({ columns := cols, values := rows, rowsAffected := none },
                   { h with db := some s2 })
    | Except.error e =>
        match E.run s query with
        | Except.ok (n, s2) =>
            Except.ok ({ columns := ["Result"],
                         values := [[SQLValue.vText "Query executed successfully"]],
                         rowsAffected := some n },
                       { h with db := some s2 })
        | Except.error _ => Except.error ("SQL Error: " ++ e)

/-- Method `exportDatabase` (lines 76-81). -/
def exportDatabase {σ : Type} (E : EngineOps σ) (h : SQLDatabase σ) :
    Except String (List (Fin 256)) :=
  match h.db with
  | none => Except.error "Database not initialized"
  | some s => Except.ok (E.exportBytes s)

/-- Method `close` (lines 83-88): releases the engine and nulls the field;
a no-op when the engine is already `null`. -/
def close {σ : Type} (h : SQLDatabase σ) : SQLDatabase σ :=
  { h with db := none }

/-- Model of JavaScript `String.prototype.trim` (structural, so that it
evaluates in the kernel, unlike `String.trim`): drops leading and trailing
whitespace. -/
def jsTrim (s : String) : String :=
  ⟨((s.data.dropWhile Char.isWhitespace).reverse.dropWhile Char.isWhitespace).reverse⟩

/-- Method `executeMultipleQueries` (lines 98-117): trims each statement,
skips empty ones, and isolates per-statement failures as inline `["Error"]`
results while continuing with the remaining statements. -/
def executeMultipleQueries {σ : Type} (E : EngineOps σ) (h : SQLDatabase σ) :
    List String → List QueryResult × SQLDatabase σ
  | [] => ([], h)
  | q :: rest =>
    if jsTrim q = "" then executeMultipleQueries E h rest
    else
      match executeQuery E h (jsTrim q) with
      | Except.ok (r, h2) =>
          let p := executeMultipleQueries E h2 rest
          (r :: p.1, p.2)
      | Except.error e =>
          let p := executeMultipleQueries E h rest
          ({ columns := ["Error"], values := [[SQLValue.vText e]],
             rowsAffected := none } :: p.1, p.2)

/-- Method `getTableInfo` (lines 119-121). -/
def getTableInfo {σ : Type} (E : EngineOps σ) (h : SQLDatabase σ) :
    Except String (QueryResult × SQLDatabase σ) :=
  executeQuery E h "SELECT name FROM sqlite_master WHERE type='table' ORDER BY name;"

/-- State of the concrete scenario engine: whether table `t` exists and its
rows. -/
structure TState where
  hasT : Bool
  rows : List Int
deriving DecidableEq, Repr

/-- Modelled from the spec: the backing embedded engine (sql.js) is not part of
the repository, only its five primitives are consumed (spec section 6).  This
instance realizes the spec's classification assumption (section 4.1): the
row-producing preparation succeeds exactly for the row-producing `SELECT`
statements of the scenarios and fails for DDL/INSERT, while direct execution
succeeds for the mutating scenario statements and reports the affected-row
count. -/
def testEngine : EngineOps TState where
  newDatabase := fun _ => { hasT := false, rows := [] }
  prepQuery := fun s q =>
    if q = "SELECT * FROM t;" then
      if s.hasT then
        Except.ok (["id"], s.rows.map (fun i => [SQLValue.vInt i]), s)
      else Except.error "no such table: t"
    else if q = "SELECT * FROM nonexistent;" then
      Except.error "no such table: nonexistent"
    else Except.error "not a row-producing statement"
  run := fun s q =>
    if q = "CREATE TABLE t (id INTEGER);" then
      if s.hasT then Except.error "table t already exists"
      else Except.ok (0, { hasT := true, rows := [] })
    else if q = "INSERT INTO t VALUES (1);" then
      if s.hasT then Except.ok (1, { s with rows := s.rows ++ [1] })
      else Except.error "no such table: t"
    else Except.error "statement failed"
  exportBytes := fun _ => []

/-- A handle opened on an empty scenario engine. -/
def hOpen0 : SQLDatabase TState :=
  { db := some { hasT := false, rows := [] }, dbId := "db1", dbName := "practice" }

/-- Transcoding `Array.from(database.data)` (`src/lib/storage.ts` line 40):
the binary blob becomes a plain array of numbers for storage. -/
def uint8ToStored (b : List (Fin 256)) : List Nat :=
  b.map Fin.val

/-- Transcoding `new Uint8Array(stored.data)` (line 57): numbers are coerced
back to bytes (JavaScript `ToUint8`, i.e. modulo 256 on naturals). -/
def storedToUint8 (l : List Nat) : List (Fin 256) :=
  l.map fun n => ⟨n % 256, by omega⟩

/-- Model of `Date.prototype.toISOString` (lines 41-42): an injective decimal
text encoding of the millisecond timestamp (the real encoding is an ISO-8601
datetime at the same millisecond precision). -/
def toISOString (t : Nat) : String :=
  ⟨(Nat.digits 10 t).reverse.map fun d => Char.ofNat (d + 48)⟩

/-- Model of `new Date(isoText)` (lines 58-59): parses the decimal text back
to the millisecond timestamp. -/
def fromISOString (s : String) : Nat :=
  Nat.ofDigits 10 ((s.data.map fun c => c.toNat - 48).reverse)

/-- The JSON-like shape written by `saveDatabase` (lines 37-43): the blob as a
number array, the timestamps as their serialized text. -/
structure StoredRecord where
  id : String
  name : String
  data : List Nat
  createdAt : String
  lastModified : String
deriving DecidableEq, Repr

/-- A value held by the backing store under one key: either a well-formed
stored record, or one whose deserialization throws (the corrupt case the
lenient-read policy of `loadDatabase` lines 61-64 catches). -/
inductive StoredItem where
  | good : StoredRecord → StoredItem
  | corrupt : StoredItem
deriving DecidableEq, Repr

/-- The backing key-value store (localforage instance), modelled as an
association list in key-enumeration order. -/
abbrev KVStore := List (String × StoredItem)

/-- Store primitive `getItem`: lookup by key. -/
def getItem : KVStore → String → Option StoredItem
  | [], _ => none
  | (k, v) :: rest, id => if k = id then some v else getItem rest id

/-- Store primitive `setItem`: overwrite in place, or append a new key. -/
def setItem : KVStore → String → StoredItem → KVStore
  | [], id, v => [(id, v)]
  | (k, w) :: rest, id, v =>
    if k = id then (id, v) :: rest else (k, w) :: setItem rest id v

/-- Store primitive `removeItem`: drops the key (succeeding also when the key
is absent). -/
def removeItem : KVStore → String → KVStore
  | [], _ => []
  | (k, v) :: rest, id =>
    if k = id then removeItem rest id else (k, v) :: removeItem rest id

/-- Store primitive `keys`: the keys in enumeration order. -/
def storeKeys (st : KVStore) : List String :=
  st.map Prod.fst

/-- A persisted unit of user data (interface `Database`,
`src/unnamed/part_000` lines 11-17). -/
structure Database where
  id : String
  name : String
  data : List (Fin 256)
  createdAt : Nat
  lastModified : Nat
deriving DecidableEq, Repr

/-- Method `DatabaseStorage.saveDatabase` (`src/lib/storage.ts` lines 35-47):
writes the full record under key `database.id`, transcoding the blob to a
number array and the timestamps to text. -/
def saveDatabase (d : Database) (st : KVStore) : KVStore :=
  setItem st d.id (StoredItem.good
    { id := d.id
      name := d.name
      data := uint8ToStored d.data
      createdAt := toISOString d.createdAt
      lastModified := toISOString d.lastModified })

/-- Method `DatabaseStorage.loadDatabase` (lines 49-65): absent key gives
`none`; a stored value whose deserialization throws is caught and also gives
`none` (lenient read); otherwise the record is reconstructed field by field. -/
def loadDatabase (st : KVStore) (id : String) : Option Database :=
  match getItem st id with
  | none => none
  | some StoredItem.corrupt => none
  | some (StoredItem.good r) =>
    some { id := r.id
           name := r.name
           data := storedToUint8 r.data
           createdAt := fromISOString r.createdAt
           lastModified := fromISOString r.lastModified }

/-- The loop of `getAllDatabases` (lines 69-77): load every enumerated key,
keeping the successful loads in enumeration order. -/
def loadedList (st : KVStore) : List Database :=
  (storeKeys st).filterMap (loadDatabase st)

/-- The comparator `(a, b) => b.lastModified.getTime() - a.lastModified.getTime()`
(line 79), as the Boolean "a may come before b" relation it induces. -/
def dbLE (a b : Database) : Bool :=
  decide (b.lastModified ≤ a.lastModified)

/-- Method `DatabaseStorage.getAllDatabases` (lines 67-84): the loaded records
sorted by the comparator; `Array.prototype.sort` is stable, modelled by
`List.mergeSort`. -/
def getAllDatabases (st : KVStore) : List Database :=
  (loadedList st).mergeSort dbLE

/-- Method `DatabaseStorage.deleteDatabase` (lines 86-92). -/
def deleteDatabase (st : KVStore) (id : String) : KVStore :=
  removeItem st id

/-- Model of the regular expression replacement `file.name.replace(/\.[^/.]+$/, '')`
(line 115): drops a final dot-extension whose text is nonempty and free of
dots and slashes; otherwise the name is unchanged. -/
def stripExtension (s : String) : String :=
  let rev := s.data.reverse
  let ext := rev.takeWhile fun c => c != '.'
  if ext.isEmpty then s
  else if ext.contains '/' then s
  else if ext.length = rev.length then s
  else ⟨(rev.drop (ext.length + 1)).reverse⟩

/-- Method `DatabaseStorage.importDatabase` (lines 106-137).  The surrounding
`FileReader` plumbing is host API; the constructed record is a pure function
of the file name, the bytes read, the current time `now` (`Date.now()` and the
two `new Date()` calls) and the random component `rand` of the generated id. -/
def importDatabase (filename : String) (bytes : List (Fin 256)) (now : Nat)
    (rand : String) : Database :=
  { id := "db_" ++ toString now ++ "_" ++ rand
    name :=
      if stripExtension filename = "" then "Imported Database " ++ toString now
      else stripExtension filename
    data := bytes
    createdAt := now
    lastModified := now }

/-- Method `DatabaseStorage.clearAllDatabases` (lines 139-145). -/
def clearAllDatabases (_st : KVStore) : KVStore :=
  []

/-! ### Helper lemmas -/

theorem map_map_id {α β : Type} (f : α → β) (g : β → α) (l : List α)
    (h : ∀ x ∈ l, g (f x) = x) : (l.map f).map g = l := by
  induction l with
  | nil => rfl
  | cons a t ih =>
    simp only [List.map_cons, List.cons.injEq]
    exact ⟨h a (by simp), ih fun x hx => h x (by simp [hx])⟩

theorem storedToUint8_uint8ToStored (b : List (Fin 256)) :
    storedToUint8 (uint8ToStored b) = b := by
  unfold storedToUint8 uint8ToStored
  apply map_map_id
  intro x _
  exact Fin.ext (Nat.mod_eq_of_lt x.isLt)

theorem fromISOString_toISOString (t : Nat) : fromISOString (toISOString t) = t := by
  have key : ∀ d, d < 10 → (Char.ofNat (d + 48)).toNat - 48 = d := by decide
  have hdig : ∀ d ∈ (Nat.digits 10 t).reverse,
      (fun c => c.toNat - 48) ((fun d => Char.ofNat (d + 48)) d) = d := by
    intro d hd
    rw [List.mem_reverse] at hd
    exact key d (Nat.digits_lt_base (by norm_num) hd)
  simp only [fromISOString, toISOString]
  rw [map_map_id _ _ _ hdig, List.reverse_reverse]
  exact Nat.ofDigits_digits 10 t

theorem getItem_setItem (st : KVStore) (id : String) (v : StoredItem) :
    getItem (setItem st id v) id = some v := by
  induction st with
  | nil => simp [setItem, getItem]
  | cons kv rest ih =>
    obtain ⟨k, w⟩ := kv
    by_cases hk : k = id
    · simp [setItem, hk, getItem]
    · simp [setItem, hk, getItem, ih]

theorem getItem_removeItem (st : KVStore) (id : String) :
    getItem (removeItem st id) id = none := by
  induction st with
  | nil => rfl
  | cons kv rest ih =>
    obtain ⟨k, w⟩ := kv
    by_cases hk : k = id
    · simp [removeItem, hk, ih]
    · simp [removeItem, hk, getItem, ih]

theorem removeItem_of_absent (st : KVStore) (id : String)
    (h : getItem st id = none) : removeItem st id = st := by
  induction st with
  | nil => rfl
  | cons kv rest ih =>
    obtain ⟨k, w⟩ := kv
    by_cases hk : k = id
    · simp [getItem, hk] at h
    · simp [getItem, hk] at h
      simp [removeItem, hk, ih h]

theorem removeItem_idem (st : KVStore) (id : String) :
    removeItem (removeItem st id) id = removeItem st id := by
  induction st with
  | nil => rfl
  | cons kv rest ih =>
    obtain ⟨k, w⟩ := kv
    by_cases hk : k = id
    · simp [removeItem, hk, ih]
    · simp [removeItem, hk, ih]

theorem getItem_some_mem_storeKeys (st : KVStore) (id : String) (v : StoredItem)
    (h : getItem st id = some v) : id ∈ storeKeys st := by
  induction st with
  | nil => simp [getItem] at h
  | cons kv rest ih =>
    obtain ⟨k, w⟩ := kv
    by_cases hk : k = id
    · simp [storeKeys, hk]
    · simp [getItem, hk] at h
      simp [storeKeys] at ih ⊢
      exact Or.inr (ih h)

theorem mem_loadedList_of_load (st : KVStore) (id : String) (d : Database)
    (h : loadDatabase st id = some d) : d ∈ loadedList st := by
  have hid : id ∈ storeKeys st := by
    unfold loadDatabase at h
    cases hg : getItem st id with
    | none => rw [hg] at h; exact absurd h (by simp)
    | some v => exact getItem_some_mem_storeKeys st id v hg
  exact List.mem_filterMap.mpr ⟨id, hid, h⟩

theorem dbLE_trans : ∀ (a b c : Database), dbLE a b → dbLE b c → dbLE a c := by
  intro a b c h1 h2
  simp only [dbLE, decide_eq_true_eq] at *
  omega

theorem dbLE_total : ∀ (a b : Database), dbLE a b || dbLE b a := by
  intro a b
  simp only [dbLE, Bool.or_eq_true, decide_eq_true_eq]
  omega

theorem executeQuery_not_initialized {σ : Type} (E : EngineOps σ)
    (h : SQLDatabase σ) (q : String) (hdb : h.db = none) :
    executeQuery E h q = Except.error "Database not initialized" := by
  obtain ⟨db, i, n⟩ := h
  cases hdb
  rfl

theorem exportDatabase_not_initialized {σ : Type} (E : EngineOps σ)
    (h : SQLDatabase σ) (hdb : h.db = none) :
    exportDatabase E h = Except.error "Database not initialized" := by
  obtain ⟨db, i, n⟩ := h
  cases hdb
  rfl

theorem executeMultipleQueries_length {σ : Type} (E : EngineOps σ)
    (h : SQLDatabase σ) (qs : List String) :
    (executeMultipleQueries E h qs).1.length
      = (qs.filter fun q => !(jsTrim q == "")).length := by
  induction qs generalizing h with
  | nil => rfl
  | cons q rest ih =>
    by_cases hq : jsTrim q = ""
    · simp [executeMultipleQueries, hq, List.filter_cons, ih]
    · rw [List.filter_cons]
      have hq2 : (!(jsTrim q == "")) = true := by simp [hq]
      rw [if_pos hq2]
      cases hE : executeQuery E h (jsTrim q) with
      | ok p =>
        obtain ⟨r, h2⟩ := p
        simp [executeMultipleQueries, hq, hE, ih]
      | error e =>
        simp [executeMultipleQueries, hq, hE, ih]

theorem executeMultipleQueries_skip {σ : Type} (E : EngineOps σ)
    (h : SQLDatabase σ) (q : String) (rest : List String) (hq : jsTrim q = "") :
    executeMultipleQueries E h (q :: rest) = executeMultipleQueries E h rest := by
  simp [executeMultipleQueries, hq]

theorem executeMultipleQueries_cons_ok {σ : Type} (E : EngineOps σ)
    (h h2 : SQLDatabase σ) (q : String) (rest : List String) (r : QueryResult)
    (hq : jsTrim q ≠ "") (hE : executeQuery E h (jsTrim q) = Except.ok (r, h2)) :
    (executeMultipleQueries E h (q :: rest)).1
      = r :: (executeMultipleQueries E h2 rest).1 := by
  simp [executeMultipleQueries, hq, hE]

theorem executeMultipleQueries_cons_error {σ : Type} (E : EngineOps σ)
    (h : SQLDatabase σ) (q : String) (rest : List String) (e : String)
    (hq : jsTrim q ≠ "") (hE : executeQuery E h (jsTrim q) = Except.error e) :
    (executeMultipleQueries E h (q :: rest)).1
      = { columns := ["Error"], values := [[SQLValue.vText e]],
          rowsAffected := none } :: (executeMultipleQueries E h rest).1 := by
  simp [executeMultipleQueries, hq, hE]

/-! ### Claim theorems -/

/-- C1: for every batch passed to `executeMultipleQueries`, the returned
sequence has exactly one `QueryResult` per input statement that is non-empty
after trimming, in input order; empty statements are skipped; a failing
statement contributes a synthetic `["Error"]` result holding the error message
and the remaining statements are still executed. -/
theorem executeBatch_per_statement {σ : Type} (E : EngineOps σ)
    (h : SQLDatabase σ) (qs : List String) :
    ((executeMultipleQueries E h qs).1.length
        = (qs.filter fun q => !(jsTrim q == "")).length)
    ∧ (∀ q rest, jsTrim q = "" →
        executeMultipleQueries E h (q :: rest) = executeMultipleQueries E h rest)
    ∧ (∀ q rest r h2, jsTrim q ≠ "" →
        executeQuery E h (jsTrim q) = Except.ok (r, h2) →
        (executeMultipleQueries E h (q :: rest)).1
          = r :: (executeMultipleQueries E h2 rest).1)
    ∧ (∀ q rest e, jsTrim q ≠ "" →
        executeQuery E h (jsTrim q) = Except.error e →
        (executeMultipleQueries E h (q :: rest)).1
          = { columns := ["Error"], values := [[SQLValue.vText e]],
              rowsAffected := none } :: (executeMultipleQueries E h rest).1) :=
  ⟨executeMultipleQueries_length E h qs,
   fun q rest hq => executeMultipleQueries_skip E h q rest hq,
   fun q rest r h2 hq hE => executeMultipleQueries_cons_ok E h h2 q rest r hq hE,
   fun q rest e hq hE => executeMultipleQueries_cons_error E h q rest e hq hE⟩

/-- Witness for C1 at the concrete scenario engine: a batch of one failing,
one blank and one further statement yields two results, and a single failing
statement yields exactly its inline error result. -/
theorem executeBatch_per_statement_witness :
    ((executeMultipleQueries testEngine hOpen0
        ["SELECT * FROM nonexistent;", " ", "CREATE TABLE t (id INTEGER);"]).1.length = 2)
    ∧ ((executeMultipleQueries testEngine hOpen0 ["SELECT * FROM nonexistent;"]).1
        = [{ columns := ["Error"],
             values := [[SQLValue.vText "SQL Error: no such table: nonexistent"]],
             rowsAffected := none }]) :=
  ⟨(executeBatch_per_statement testEngine hOpen0
      ["SELECT * FROM nonexistent;", " ", "CREATE TABLE t (id INTEGER);"]).1.trans
      (by decide),
   (executeBatch_per_statement testEngine hOpen0
      ["SELECT * FROM nonexistent;"]).2.2.2 "SELECT * FROM nonexistent;" []
      "SQL Error: no such table: nonexistent" (by decide) rfl⟩

/-- C2: the three-statement batch `CREATE TABLE t (id INTEGER);` /
`INSERT INTO t VALUES (1);` / `SELECT * FROM t;` on a fresh database produces
the two synthetic `["Result"]` success results carrying `rowsAffected` 0 and 1,
followed by the `SELECT` rows with no `rowsAffected`. -/
theorem executeBatch_scenario_create_insert_select :
    (executeMultipleQueries testEngine hOpen0
      ["CREATE TABLE t (id INTEGER);", "INSERT INTO t VALUES (1);",
       "SELECT * FROM t;"]).1
    = [{ columns := ["Result"],
         values := [[SQLValue.vText "Query executed successfully"]],
         rowsAffected := some 0 },
       { columns := ["Result"],
         values := [[SQLValue.vText "Query executed successfully"]],
         rowsAffected := some 1 },
       { columns := ["id"], values := [[SQLValue.vInt 1]],
         rowsAffected := none }] := by
  decide

/-- C3: whenever both the row-producing attempt and the fallback direct
execution fail, `executeQuery` fails with `"SQL Error: "` followed by the
first (row-producing) attempt's message — the fallback attempt's message never
appears. -/
theorem executeQuery_error_from_first_attempt {σ : Type} (E : EngineOps σ)
    (h : SQLDatabase σ) (s : σ) (q e1 e2 : String) (hdb : h.db = some s)
    (hp : E.prepQuery s q = Except.error e1)
    (hr : E.run s q = Except.error e2) :
    executeQuery E h q = Except.error ("SQL Error: " ++ e1) := by
  obtain ⟨db, i, n⟩ := h
  cases hdb
  simp [executeQuery, hp, hr]

/-- Witness for C3: `SELECT * FROM nonexistent;` fails on both paths of the
scenario engine and the reported message carries the query-path failure. -/
theorem executeQuery_error_from_first_attempt_witness :
    executeQuery testEngine hOpen0 "SELECT * FROM nonexistent;"
      = Except.error ("SQL Error: " ++ "no such table: nonexistent") :=
  executeQuery_error_from_first_attempt testEngine hOpen0
    { hasT := false, rows := [] } "SELECT * FROM nonexistent;"
    "no such table: nonexistent" "statement failed" rfl rfl rfl

/-- C7: `executeQuery` and `exportDatabase` on a freshly constructed or closed
handle fail with the `"Database not initialized"` error rather than silently
no-opping, and `close` is idempotent — closing an already-closed or
never-opened handle is a no-op, not an error. -/
theorem handle_lifecycle_not_initialized {σ : Type} (E : EngineOps σ)
    (id name q : String) (h : SQLDatabase σ) :
    executeQuery E (mkHandle σ id name) q = Except.error "Database not initialized"
    ∧ exportDatabase E (mkHandle σ id name) = Except.error "Database not initialized"
    ∧ executeQuery E (close h) q = Except.error "Database not initialized"
    ∧ exportDatabase E (close h) = Except.error "Database not initialized"
    ∧ close (close h) = close h
    ∧ close (mkHandle σ id name) = mkHandle σ id name :=
  ⟨executeQuery_not_initialized E (mkHandle σ id name) q rfl,
   exportDatabase_not_initialized E (mkHandle σ id name) rfl,
   executeQuery_not_initialized E (close h) q rfl,
   exportDatabase_not_initialized E (close h) rfl,
   rfl, rfl⟩

/-- C10: on a handle with no live engine (never opened or closed),
`executeMultipleQueries` still returns a full result list — one inline
`["Error"]` result holding the `"Database not initialized"` message per
non-empty statement — rather than failing. -/
theorem executeBatch_total_on_uninitialized {σ : Type} (E : EngineOps σ)
    (h : SQLDatabase σ) (qs : List String) (hdb : h.db = none) :
    executeMultipleQueries E h qs
      = ((qs.filter fun q => !(jsTrim q == "")).map fun _ =>
          { columns := ["Error"],
            values := [[SQLValue.vText "Database not initialized"]],
            rowsAffected := none }, h) := by
  induction qs with
  | nil => simp [executeMultipleQueries]
  | cons q rest ih =>
    by_cases hq : jsTrim q = ""
    · simp [executeMultipleQueries, hq, List.filter_cons, ih]
    · have hE := executeQuery_not_initialized E h (jsTrim q) hdb
      simp [executeMultipleQueries, hq, hE, List.filter_cons, ih]

/-- Witness for C10 at the scenario engine and a never-opened handle. -/
theorem executeBatch_total_on_uninitialized_witness :
    (executeMultipleQueries testEngine (mkHandle TState "i" "n")
        ["SELECT * FROM t;", " "]).1
      = [{ columns := ["Error"],
           values := [[SQLValue.vText "Database not initialized"]],
           rowsAffected := none }] := by
  have h := executeBatch_total_on_uninitialized testEngine
    (mkHandle TState "i" "n") ["SELECT * FROM t;", " "] rfl
  rw [h]
  rfl

theorem loadDatabase_saveDatabase (st : KVStore) (d : Database) :
    loadDatabase (saveDatabase d st) d.id = some d := by
  unfold loadDatabase saveDatabase
  rw [getItem_setItem]
  simp [storedToUint8_uint8ToStored, fromISOString_toISOString]

/-- C4: `saveDatabase` followed by `loadDatabase` at the record's id returns
the record back — the data blob round-trips byte-identically through the
store's number-array encoding, id and name are preserved, and the timestamps
round-trip exactly through their serialized textual form. -/
theorem save_load_roundtrip (st : KVStore) (d : Database) :
    loadDatabase (saveDatabase d st) d.id = some d :=
  loadDatabase_saveDatabase st d

/-- C5: `getAllDatabases` returns exactly the successfully loadable records
(a permutation of the loads in key-enumeration order), sorted by
`lastModified` descending, and ties between equal timestamps keep the
original enumeration order (any equal-timestamp selection of the enumeration
survives as a sublist of the output). -/
theorem getAllDatabases_sorted_stable (st : KVStore) :
    List.Perm (getAllDatabases st) (loadedList st)
    ∧ List.Pairwise (fun a b => b.lastModified ≤ a.lastModified)
        (getAllDatabases st)
    ∧ ∀ (l : List Database), List.Sublist l (loadedList st) →
        (∀ a ∈ l, ∀ b ∈ l, a.lastModified = b.lastModified) →
        List.Sublist l (getAllDatabases st) := by
  unfold getAllDatabases
  refine ⟨List.mergeSort_perm (loadedList st) dbLE, ?_, ?_⟩
  · have hs := List.sorted_mergeSort dbLE_trans dbLE_total (loadedList st)
    exact hs.imp fun hab => of_decide_eq_true hab
  · intro l hsub hall
    have hp : l.Pairwise (fun a b => dbLE a b = true) := by
      apply List.pairwise_of_forall_mem_list
      intro a ha b hb
      have := hall a ha b hb
      simp [dbLE, this]
    exact List.sublist_mergeSort dbLE_trans dbLE_total hp hsub

/-- A store holding two loadable records with equal `lastModified`. -/
def stTie : KVStore :=
  [("a", StoredItem.good
      { id := "a", name := "A", data := [], createdAt := "1", lastModified := "5" }),
   ("b", StoredItem.good
      { id := "b", name := "B", data := [], createdAt := "2", lastModified := "5" })]

/-- Witness for C5: with two equal-timestamp records, the whole enumeration
keeps its original order in the output. -/
theorem getAllDatabases_sorted_stable_witness :
    List.Sublist (loadedList stTie) (getAllDatabases stTie) :=
  (getAllDatabases_sorted_stable stTie).2.2 (loadedList stTie)
    (List.Sublist.refl _) (by decide)

/-- C6: `loadDatabase` returns `none` (absent), not an error, when no record
exists under the id, and also returns `none` when the stored value fails to
deserialize; and every record that does load still appears in
`getAllDatabases`, so a corrupted record never makes load or list fail
outright. -/
theorem loadDatabase_lenient (st : KVStore) (id : String) :
    (getItem st id = none → loadDatabase st id = none)
    ∧ (getItem st id = some StoredItem.corrupt → loadDatabase st id = none)
    ∧ (∀ d, loadDatabase st id = some d → d ∈ getAllDatabases st) := by
  refine ⟨?_, ?_, ?_⟩
  · intro h
    unfold loadDatabase
    rw [h]
  · intro h
    unfold loadDatabase
    rw [h]
  · intro d hd
    have h1 := mem_loadedList_of_load st id d hd
    have h2 := List.mergeSort_perm (loadedList st) dbLE
    unfold getAllDatabases
    exact h2.mem_iff.mpr h1

/-- A store holding one loadable record beside one corrupt entry. -/
def stMix : KVStore :=
  [("a", StoredItem.good
      { id := "a", name := "A", data := [3], createdAt := "1", lastModified := "5" }),
   ("b", StoredItem.corrupt)]

/-- The record the well-formed entry of `stMix` deserializes to. -/
def dbA : Database :=
  { id := "a", name := "A", data := [(3 : Fin 256)], createdAt := 1, lastModified := 5 }

/-- Witness for C6: an absent id and the corrupt entry load as absent, while
the good record beside the corrupt one still appears in the listing. -/
theorem loadDatabase_lenient_witness :
    loadDatabase stMix "zzz" = none
    ∧ loadDatabase stMix "b" = none
    ∧ dbA ∈ getAllDatabases stMix :=
  ⟨(loadDatabase_lenient stMix "zzz").1 rfl,
   (loadDatabase_lenient stMix "b").2.1 rfl,
   (loadDatabase_lenient stMix "a").2.2 dbA rfl⟩

/-- C8: `importDatabase` produces a record whose data is byte-identical to the
input bytes, whose timestamps are both the current time, whose name is the
filename with its extension stripped (falling back to the generated
placeholder when the stripped name is empty), whose generated id is unique
across calls with distinct random components, and the record is not persisted:
it is absent from any store not containing its fresh id until `saveDatabase`
stores it. -/
theorem importDatabase_fresh (filename : String) (bytes : List (Fin 256))
    (now : Nat) (rand : String) (st : KVStore) :
    ((importDatabase filename bytes now rand).data = bytes)
    ∧ ((importDatabase filename bytes now rand).createdAt = now)
    ∧ ((importDatabase filename bytes now rand).lastModified = now)
    ∧ ((importDatabase "mydata.sqlite" bytes now rand).name = "mydata")
    ∧ (stripExtension filename ≠ "" →
        (importDatabase filename bytes now rand).name = stripExtension filename)
    ∧ (stripExtension filename = "" →
        (importDatabase filename bytes now rand).name
          = "Imported Database " ++ toString now)
    ∧ (∀ f2 b2 r2, r2 ≠ rand →
        (importDatabase f2 b2 now r2).id ≠ (importDatabase filename bytes now rand).id)
    ∧ (getItem st (importDatabase filename bytes now rand).id = none →
        loadDatabase st (importDatabase filename bytes now rand).id = none)
    ∧ (loadDatabase (saveDatabase (importDatabase filename bytes now rand) st)
        (importDatabase filename bytes now rand).id
        = some (importDatabase filename bytes now rand)) := by
  refine ⟨rfl, rfl, rfl, ?_, ?_, ?_, ?_, ?_, ?_⟩
  · have hs : stripExtension "mydata.sqlite" = "mydata" := by decide
    simp [importDatabase, hs]
  · intro hne
    simp [importDatabase, hne]
  · intro heq
    simp [importDatabase, heq]
  · intro f2 b2 r2 hr2 heq
    apply hr2
    simp only [importDatabase] at heq
    have h2 := congrArg String.data heq
    simp only [String.data_append, List.append_assoc] at h2
    exact String.ext
      (List.append_cancel_left (List.append_cancel_left (List.append_cancel_left h2)))
  · intro h
    unfold loadDatabase
    rw [h]
  · exact loadDatabase_saveDatabase st (importDatabase filename bytes now rand)

/-- Witness for C8 at the spec's scenario input `mydata.sqlite`. -/
theorem importDatabase_fresh_witness :
    ((importDatabase "mydata.sqlite" [(7 : Fin 256)] 3 "r1").name = "mydata")
    ∧ (loadDatabase [] (importDatabase "mydata.sqlite" [(7 : Fin 256)] 3 "r1").id = none)
    ∧ ((importDatabase "x.db" [] 3 "r2").id
        ≠ (importDatabase "mydata.sqlite" [(7 : Fin 256)] 3 "r1").id) :=
  ⟨(importDatabase_fresh "mydata.sqlite" [(7 : Fin 256)] 3 "r1" []).2.2.2.1,
   (importDatabase_fresh "mydata.sqlite" [(7 : Fin 256)] 3 "r1" []).2.2.2.2.2.2.2.1 rfl,
   (importDatabase_fresh "mydata.sqlite" [(7 : Fin 256)] 3 "r1" []).2.2.2.2.2.2.1
     "x.db" [] "r2" (by decide)⟩

/-- C9: `deleteDatabase` on a nonexistent id leaves the store unchanged (no
failure), deleting twice equals deleting once, and after a delete the id loads
as absent. -/
theorem deleteDatabase_idempotent_absent (st : KVStore) (id : String) :
    (getItem st id = none → deleteDatabase st id = st)
    ∧ (deleteDatabase (deleteDatabase st id) id = deleteDatabase st id)
    ∧ (loadDatabase (deleteDatabase st id) id = none) := by
  refine ⟨fun h => removeItem_of_absent st id h, removeItem_idem st id, ?_⟩
  unfold loadDatabase deleteDatabase
  rw [getItem_removeItem]

/-- Witness for C9: deleting an id absent from `stMix` is a no-op, and a
deleted record loads as absent. -/
theorem deleteDatabase_idempotent_absent_witness :
    (deleteDatabase stMix "zzz" = stMix)
    ∧ (loadDatabase (deleteDatabase stMix "a") "a" = none) :=
  ⟨(deleteDatabase_idempotent_absent stMix "zzz").1 rfl,
   (deleteDatabase_idempotent_absent stMix "a").2.2⟩
